import Mathlib

/-!
Shallow embedding of libsmart/Stm32ThreadxThread (C++ wrapper over the
ThreadX kernel thread API) and proofs about its specification claims.

Sources embedded:
- Stm32ThreadxThread.hpp / .cpp : class `thread` (create, suspend, resume,
  terminate, destructor, priority, state query, join protocol) and
  namespace `this_thread` (sleepFor, sleepUntil).
- Stm32ThreadxTickTimer.hpp / .cpp : `tick_timer` clock and `toTicks`.

Pointers are modelled as natural numbers, with 0 standing for `nullptr`.
Machine integers (ThreadX `ULONG`, 32-bit unsigned) are modelled as `Nat`
with explicit `% 2^32` where C++ unsigned wraparound matters.
Kernel calls are modelled by their observable effect: each wrapper
operation receives the status the kernel call would return and the result
records whether the wrapper's `assert` on that status fires.
-/

set_option autoImplicit false

namespace Stm32ThreadxThread

/-! ### Kernel constants (tx_api.h) -/

def TX_SUCCESS : Nat := 0

def TX_READY : Nat := 0

def TX_COMPLETED : Nat := 1

def TX_TERMINATED : Nat := 2

def TX_SUSPENDED : Nat := 3

def TX_NO_TIME_SLICE : Nat := 0

def TX_DONT_START : Nat := 0

def TX_THREAD_ENTRY : Nat := 0

def TX_THREAD_EXIT : Nat := 1

/-- Modulus of the 32-bit unsigned `ULONG` used as `tick_timer::rep`. -/
def ULONG_MOD : Nat := 4294967296

/-! ### Tick timer (Stm32ThreadxTickTimer.hpp) -/

namespace tick_timer

/-- `tick_timer::duration = std::chrono::duration<ULONG, period>`: an
integral count of kernel ticks, `rep = native::ULONG`. -/
structure duration where
  count : Nat
deriving DecidableEq

end tick_timer

/-- `constexpr tick_timer::rep toTicks(const tick_timer::duration &duration)
{ return duration.count(); }` -/
def toTicks (d : tick_timer.duration) : Nat := d.count

/-- C++ unsigned 32-bit subtraction `a - b` (wraps modulo `2^32`), the
arithmetic performed on `tick_timer::rep` when two time points are
subtracted. -/
def usub32 (a b : Nat) : Nat := (a + (ULONG_MOD - b % ULONG_MOD)) % ULONG_MOD

/-- `this_thread::sleepUntil(abs_time)` instantiated at
`Clock = tick_timer`: the body is `sleepFor(abs_time - Clock::now())`,
and `sleepFor` passes `toTicks` of that difference to `tx_thread_sleep`.
The time-point difference is computed in the unsigned tick representation,
so it wraps modulo `2^32`; the result here is the tick count requested from
the kernel. -/
def sleepUntil_ticks (abs_time now : Nat) : Nat :=
  toTicks (tick_timer.duration.mk (usub32 abs_time now))

/-! ### Thread handle state -/

/-- `enum class state` of `thread`. -/
inductive state where
  | running
  | ready
  | completed
  | terminated
  | suspended
deriving DecidableEq

/-- The wrapper's view of one `thread` object: the embedded ThreadX control
block fields the wrapper reads or writes, plus the constructor-stored
members. `addr` is the object's own address (`this`), which is also its
identity (`getId()` returns `id(this)`). `entry_exit_param` is the
`TX_THREAD_USER_EXTENSION` slot `entry_exit_param_` (0 = `nullptr`);
`entry_exit_cb` is the kernel notification-callback slot (0 = none). -/
structure thread where
  addr : Nat
  tx_thread_state : Nat
  entry_exit_param : Nat
  entry_exit_cb : Nat
  pstack : Nat
  stack_size : Nat
  func : Nat
  param : Nat
  prio : Nat
  name : Nat
deriving DecidableEq

/-- `thread::getState() const`: switch on `tx_thread_state`;
`TX_READY` is disambiguated via `getCurrent() == this`, here
`cur = t.addr` where `cur` is the address `tx_thread_identify()` returns. -/
def getState (t : thread) (cur : Nat) : state :=
  if t.tx_thread_state = TX_READY then
    (if cur = t.addr then state.running else state.ready)
  else if t.tx_thread_state = TX_COMPLETED then state.completed
  else if t.tx_thread_state = TX_TERMINATED then state.terminated
  else state.suspended

/-- `thread::get_entry_exit_param() const { return this->entry_exit_param_; }` -/
def get_entry_exit_param (t : thread) : Nat := t.entry_exit_param

/-- `thread::joinable() const`: state not completed, not terminated, and
the entry/exit parameter slot still null. -/
def joinable (t : thread) (cur : Nat) : Bool :=
  (getState t cur ≠ state.completed) && (getState t cur ≠ state.terminated)
    && (get_entry_exit_param t = 0)

/-! ### Join protocol -/

/-- Heap of binary semaphores, addressed by `Nat`; `true` = released.
`release sems a` is `reinterpret_cast<semaphore*>(a)->release()`. -/
def release (sems : Nat → Bool) (a : Nat) : Nat → Bool :=
  fun x => if x = a then true else sems x

/-- `thread::join_exit_callback(thread *t, UINT id)`: on `TX_THREAD_EXIT`
it recovers the semaphore address from the parameter slot and releases it;
for any other reason code it does nothing. Returns the updated semaphore
heap. -/
def join_exit_callback (t : thread) (reason : Nat) (sems : Nat → Bool) :
    Nat → Bool :=
  if reason = TX_THREAD_EXIT then release sems (get_entry_exit_param t)
  else sems

/-- Function-pointer value `&thread::join_exit_callback` (any fixed
nonzero address). -/
def join_exit_callback_ptr : Nat := 1

/-- `thread::set_entry_exit_callback(func, param)`: registers `func` with
`tx_thread_entry_exit_notify`; only if the kernel reports `TX_SUCCESS` are
the callback slot and `entry_exit_param_` written. `notifyStatus` is the
status that kernel call returns. -/
def set_entry_exit_callback (t : thread) (fn p notifyStatus : Nat) : thread :=
  if notifyStatus = TX_SUCCESS then
    { t with entry_exit_cb := fn, entry_exit_param := p }
  else t

/-- Outcome of `thread::join()` up to the blocking point: either one of the
two `assert`s fires (fatal), or control reaches `exit_cond.acquire()` with
the thread object in the recorded state. -/
inductive joinOutcome where
  | fatalAssert
  | reachedAcquire (t : thread)
deriving DecidableEq

/-- `thread::join()`: `assert(joinable())`, then
`assert(this->get_id() != this_thread::get_id())` (self-join guard), then
registers `join_exit_callback` with the stack rendezvous semaphore address
`ecAddr` as parameter and blocks on `exit_cond.acquire()`. `callerAddr` is
the calling thread's address (= `tx_thread_identify()`, so `joinable`'s
current-thread comparison uses it too); `notifyStatus` is the status of
the `tx_thread_entry_exit_notify` kernel call. -/
def join (t : thread) (callerAddr ecAddr notifyStatus : Nat) : joinOutcome :=
  if joinable t callerAddr = false then joinOutcome.fatalAssert
  else if t.addr = callerAddr then joinOutcome.fatalAssert
  else joinOutcome.reachedAcquire
    (set_entry_exit_callback t join_exit_callback_ptr ecAddr notifyStatus)

/-! ### Wrapper operations and their status handling -/

/-- Whether a wrapper operation completed normally or died on its
`assert` over a kernel status. -/
inductive CallResult where
  | ok
  | assertFail
deriving DecidableEq

/-- `thread::suspend() { tx_thread_suspend(this); }` — the kernel status
is discarded, no `assert`. -/
def suspendResult (kernelStatus : Nat) : CallResult :=
  let _ := kernelStatus
  CallResult.ok

/-- `thread::resume() { tx_thread_resume(this); }` — status discarded. -/
def resumeResult (kernelStatus : Nat) : CallResult :=
  let _ := kernelStatus
  CallResult.ok

/-- `thread::terminate() { tx_thread_terminate(this); }` — status
discarded. -/
def terminateResult (kernelStatus : Nat) : CallResult :=
  let _ := kernelStatus
  CallResult.ok

/-- `thread::setPriority(prio) { ... tx_thread_priority_change(this, prio,
&old_prio); }` — status discarded. -/
def setPriorityResult (kernelStatus : Nat) : CallResult :=
  let _ := kernelStatus
  CallResult.ok

/-- `thread::createThread()`'s `assert(result == TX_SUCCESS)` on the
`tx_thread_create` status. -/
def createThreadResult (kernelStatus : Nat) : CallResult :=
  if kernelStatus = TX_SUCCESS then CallResult.ok else CallResult.assertFail

/-- `this_thread::sleepFor`'s `assert(result == TX_SUCCESS)` on the
`tx_thread_sleep` status. -/
def sleepForResult (kernelStatus : Nat) : CallResult :=
  if kernelStatus = TX_SUCCESS then CallResult.ok else CallResult.assertFail

/-- The argument record handed to `tx_thread_create` by
`thread::createThread()`. -/
structure tx_thread_create_args where
  thread_ptr : Nat
  name_ptr : Nat
  entry_function : Nat
  entry_input : Nat
  stack_start : Nat
  stack_size : Nat
  priority : Nat
  preempt_threshold : Nat
  time_slice : Nat
  auto_start : Nat
deriving DecidableEq

/-- `thread::createThread()`: the `tx_thread_create(this, name, func,
param, pstack, stack_size, prio, prio, TX_NO_TIME_SLICE, TX_DONT_START)`
call it issues, built from the stored members. -/
def createThreadCall (t : thread) : tx_thread_create_args :=
  { thread_ptr := t.addr
    name_ptr := t.name
    entry_function := t.func
    entry_input := t.param
    stack_start := t.pstack
    stack_size := t.stack_size
    priority := t.prio
    preempt_threshold := t.prio
    time_slice := TX_NO_TIME_SLICE
    auto_start := TX_DONT_START }

/-- Kernel calls the destructor can issue, in order. -/
inductive KernelOp where
  | tx_thread_terminate
  | tx_thread_delete
deriving DecidableEq

/-- `thread::~thread()`: `tx_thread_terminate(this)` only when
`tx_thread_state != TX_COMPLETED`, then unconditionally
`tx_thread_delete(this)`. -/
def destructorCalls (t : thread) : List KernelOp :=
  (if t.tx_thread_state ≠ TX_COMPLETED then [KernelOp.tx_thread_terminate]
   else []) ++ [KernelOp.tx_thread_delete]

/-- `thread::~thread()`'s `assert`s: the terminate status is asserted when
terminate runs, the delete status always. -/
def destructorResult (txState termStatus delStatus : Nat) : CallResult :=
  if txState ≠ TX_COMPLETED ∧ termStatus ≠ TX_SUCCESS then
    CallResult.assertFail
  else if delStatus ≠ TX_SUCCESS then CallResult.assertFail
  else CallResult.ok

/-- One externally observable step on a `thread` object after some point
in time: a wrapper member call, a kernel-driven mutation of the native
state code (covering completion, termination, suspension transitions the
scheduler performs), or the scheduler firing the entry/exit notification
(which only touches the semaphore heap, never the thread's slots). The
`Nat` arguments are the statuses the embedded kernel calls return. -/
inductive Op where
  | opSuspend (kernelStatus : Nat)
  | opResume (kernelStatus : Nat)
  | opTerminate (kernelStatus : Nat)
  | opSetPriority (p kernelStatus : Nat)
  | opCreateThread (kernelStatus : Nat)
  | opJoin (callerAddr ecAddr notifyStatus : Nat)
  | opKernelSetState (s : Nat)
  | opCallbackFire (reason : Nat)

/-- Effect of one step on the thread object. Wrapper calls
`suspend/resume/terminate/setPriority/createThread` write none of the
modelled per-object slots (their kernel-side state effects are the
`opKernelSetState` steps); `opJoin` behaves as `thread::join` — if an
assert fires the object is untouched, otherwise the callback registration
is applied; the notification callback itself only mutates the semaphore
heap. -/
def applyOp (t : thread) : Op → thread
  | Op.opSuspend _ => t
  | Op.opResume _ => t
  | Op.opTerminate _ => t
  | Op.opSetPriority _ _ => t
  | Op.opCreateThread _ => t
  | Op.opJoin callerAddr ecAddr notifyStatus =>
      match join t callerAddr ecAddr notifyStatus with
      | joinOutcome.fatalAssert => t
      | joinOutcome.reachedAcquire t' => t'
  | Op.opKernelSetState s => { t with tx_thread_state := s }
  | Op.opCallbackFire _ => t

/-- Fold of `applyOp` over a sequence of steps. -/
def applyOps (t : thread) (ops : List Op) : thread := ops.foldl applyOp t

/-! ## Theorems -/

/-- Claim C1: `join()` checks both of its preconditions with fatal
assertions before it blocks: for every handle and every calling thread, if
`joinable()` is false, or the caller's thread id equals the target
handle's id (self-join), `join()` hits a fatal assertion and never reaches
the semaphore acquire. -/
theorem join_asserts_before_acquire (t : thread)
    (callerAddr ecAddr notifyStatus : Nat)
    (h : joinable t callerAddr = false ∨ t.addr = callerAddr) :
    join t callerAddr ecAddr notifyStatus = joinOutcome.fatalAssert := by
  unfold join
  rcases h with h | h
  · simp [h]
  · by_cases hj : joinable t callerAddr = false
    · simp [hj]
    · simp [hj, h]

theorem join_asserts_before_acquire_witness :
    (thread.mk 100 0 0 0 0 0 0 0 0 0).addr = 100 ∧
    join (thread.mk 100 0 0 0 0 0 0 0 0 0) 100 300 0
      = joinOutcome.fatalAssert :=
  ⟨rfl, join_asserts_before_acquire (thread.mk 100 0 0 0 0 0 0 0 0 0)
    100 300 0 (Or.inr rfl)⟩

/-- Claim C2: for every handle, `joinable()` returns true if and only if
its projected state is neither completed nor terminated and the entry/exit
notification parameter slot is unset (null); in particular `joinable()` is
false as soon as the handle's state is completed or terminated. -/
theorem joinable_iff_state_and_slot (t : thread) (cur : Nat) :
    joinable t cur = true ↔
      (getState t cur ≠ state.completed ∧ getState t cur ≠ state.terminated
        ∧ get_entry_exit_param t = 0) := by
  simp [joinable, and_assoc]

/-- Claim C3: the registered join exit callback releases the rendezvous
semaphore stored in the notification parameter slot exactly when it is
invoked with the kernel's exit reason code (`TX_THREAD_EXIT`); for every
other lifecycle reason code the callback leaves the semaphore heap
untouched. -/
theorem join_exit_callback_releases_iff_exit (t : thread) (reason : Nat)
    (sems : Nat → Bool) (a : Nat) :
    join_exit_callback t reason sems a =
      if reason = TX_THREAD_EXIT ∧ a = get_entry_exit_param t then true
      else sems a := by
  unfold join_exit_callback release
  by_cases hr : reason = TX_THREAD_EXIT <;>
    by_cases ha : a = get_entry_exit_param t <;> simp [hr, ha]

/-- Claim C4 (evaluation at the failing input): `sleepUntil` performs no
clamping — with a deadline of tick 5 and a current clock reading of tick
10, the unsigned tick subtraction wraps and the kernel sleep request is
4294967291 ticks, not 0. -/
theorem sleepUntil_past_deadline_underflows :
    sleepUntil_ticks 5 10 = 4294967291 ∧ sleepUntil_ticks 5 10 ≠ 0 := by
  constructor <;> decide

/-- Claim C5: for every value `d` of the native tick representation type
(`ULONG`, i.e. `d < 2^32`), `toTicks (tick_timer::duration d) = d`:
the duration-to-ticks conversion is a round-trip identity with no failure
mode. -/
theorem toTicks_duration_roundtrip (d : Nat) (_h : d < ULONG_MOD) :
    toTicks (tick_timer.duration.mk d) = d := rfl

theorem toTicks_duration_roundtrip_witness :
    7 < ULONG_MOD ∧ toTicks (tick_timer.duration.mk 7) = 7 :=
  ⟨by decide, toTicks_duration_roundtrip 7 (by decide)⟩

/-- Claim C6: `getState()` maps the kernel-native state code into the
5-state enumeration: `TX_READY` maps to running when the current-thread
pointer equals this handle and to ready otherwise; `TX_COMPLETED` maps to
completed; `TX_TERMINATED` maps to terminated; every other kernel state
code maps to suspended. -/
theorem getState_mapping (t : thread) (cur : Nat) :
    (t.tx_thread_state = TX_READY →
      getState t cur = if cur = t.addr then state.running else state.ready) ∧
    (t.tx_thread_state = TX_COMPLETED → getState t cur = state.completed) ∧
    (t.tx_thread_state = TX_TERMINATED → getState t cur = state.terminated) ∧
    (t.tx_thread_state ≠ TX_READY → t.tx_thread_state ≠ TX_COMPLETED →
      t.tx_thread_state ≠ TX_TERMINATED →
      getState t cur = state.suspended) := by
  refine ⟨fun h => ?_, fun h => ?_, fun h => ?_, fun h1 h2 h3 => ?_⟩
  · simp [getState, h]
  · simp [getState, h, TX_READY, TX_COMPLETED]
  · simp [getState, h, TX_READY, TX_COMPLETED, TX_TERMINATED]
  · simp [getState, h1, h2, h3]

theorem getState_mapping_witness :
    getState (thread.mk 100 0 0 0 0 0 0 0 0 0) 100
      = (if (100 : Nat) = (thread.mk 100 0 0 0 0 0 0 0 0 0).addr
          then state.running else state.ready) ∧
    getState (thread.mk 100 1 0 0 0 0 0 0 0 0) 0 = state.completed ∧
    getState (thread.mk 100 2 0 0 0 0 0 0 0 0) 0 = state.terminated ∧
    getState (thread.mk 100 5 0 0 0 0 0 0 0 0) 0 = state.suspended :=
  ⟨(getState_mapping (thread.mk 100 0 0 0 0 0 0 0 0 0) 100).1 rfl,
   (getState_mapping (thread.mk 100 1 0 0 0 0 0 0 0 0) 0).2.1 rfl,
   (getState_mapping (thread.mk 100 2 0 0 0 0 0 0 0 0) 0).2.2.1 rfl,
   (getState_mapping (thread.mk 100 5 0 0 0 0 0 0 0 0) 0).2.2.2
     (by decide) (by decide) (by decide)⟩

/-- Claim C7: `createThread()` registers the handle with the kernel
passing the stored name, entry function, input word, stack pointer, and
stack size, with the stored priority used both as run priority and as
preemption threshold, with no time slice (`TX_NO_TIME_SLICE`) and in
don't-auto-start mode (`TX_DONT_START`), and fatally asserts that the
kernel accepted the creation. -/
theorem createThread_call_spec (t : thread) (kernelStatus : Nat) :
    (createThreadCall t).thread_ptr = t.addr ∧
    (createThreadCall t).name_ptr = t.name ∧
    (createThreadCall t).entry_function = t.func ∧
    (createThreadCall t).entry_input = t.param ∧
    (createThreadCall t).stack_start = t.pstack ∧
    (createThreadCall t).stack_size = t.stack_size ∧
    (createThreadCall t).priority = t.prio ∧
    (createThreadCall t).preempt_threshold = t.prio ∧
    (createThreadCall t).time_slice = TX_NO_TIME_SLICE ∧
    (createThreadCall t).auto_start = TX_DONT_START ∧
    (kernelStatus ≠ TX_SUCCESS →
      createThreadResult kernelStatus = CallResult.assertFail) := by
  refine ⟨rfl, rfl, rfl, rfl, rfl, rfl, rfl, rfl, rfl, rfl, fun h => ?_⟩
  simp [createThreadResult, h]

theorem createThread_call_spec_witness :
    (3 : Nat) ≠ TX_SUCCESS ∧
    createThreadResult 3 = CallResult.assertFail :=
  ⟨by decide,
   (createThread_call_spec (thread.mk 0 0 0 0 0 0 0 0 0 0)
     3).2.2.2.2.2.2.2.2.2.2 (by decide)⟩

/-- Claim C8: the destructor first force-terminates the thread (via
`tx_thread_terminate`) whenever the kernel-native state is not
`TX_COMPLETED`, and in all cases then releases the kernel-side
registration via `tx_thread_delete`; when the state is already completed,
terminate is skipped and only delete runs. -/
theorem destructor_terminate_then_delete (t : thread) :
    (t.tx_thread_state ≠ TX_COMPLETED →
      destructorCalls t
        = [KernelOp.tx_thread_terminate, KernelOp.tx_thread_delete]) ∧
    (t.tx_thread_state = TX_COMPLETED →
      destructorCalls t = [KernelOp.tx_thread_delete]) := by
  constructor <;> intro h <;> simp [destructorCalls, h]

theorem destructor_terminate_then_delete_witness :
    ((thread.mk 0 0 0 0 0 0 0 0 0 0).tx_thread_state ≠ TX_COMPLETED ∧
      destructorCalls (thread.mk 0 0 0 0 0 0 0 0 0 0)
        = [KernelOp.tx_thread_terminate, KernelOp.tx_thread_delete]) ∧
    destructorCalls (thread.mk 0 1 0 0 0 0 0 0 0 0)
      = [KernelOp.tx_thread_delete] :=
  ⟨⟨by decide,
    (destructor_terminate_then_delete (thread.mk 0 0 0 0 0 0 0 0 0 0)).1
      (by decide)⟩,
   (destructor_terminate_then_delete (thread.mk 0 1 0 0 0 0 0 0 0 0)).2 rfl⟩

/-- Claim C9, counterexample: the claim says `suspend()` fatally asserts
when the underlying kernel call returns a non-success status, but
`thread::suspend()` discards the status of `tx_thread_suspend`: at the
concrete non-success status 20 (`TX_SUSPEND_ERROR`) it completes normally
and no assertion fires. -/
theorem suspend_discards_status_counterexample :
    (20 : Nat) ≠ TX_SUCCESS ∧ suspendResult 20 = CallResult.ok ∧
      suspendResult 20 ≠ CallResult.assertFail :=
  ⟨by decide, rfl, by decide⟩

/-- Claim C9 (amended): `createThread()`, `sleepFor()` and the
destructor's terminate/delete calls consume the kernel status via fatal
assertion on non-success, while `suspend()`, `resume()`, `terminate()`
and `setPriority()` invoke the kernel call but discard its status and
never assert. -/
theorem kernel_status_assert_policy (k : Nat) :
    suspendResult k = CallResult.ok ∧
    resumeResult k = CallResult.ok ∧
    terminateResult k = CallResult.ok ∧
    setPriorityResult k = CallResult.ok ∧
    (createThreadResult k = CallResult.ok ↔ k = TX_SUCCESS) ∧
    (sleepForResult k = CallResult.ok ↔ k = TX_SUCCESS) ∧
    ∀ s term del, destructorResult s term del = CallResult.ok ↔
      ((s = TX_COMPLETED ∨ term = TX_SUCCESS) ∧ del = TX_SUCCESS) := by
  refine ⟨rfl, rfl, rfl, rfl, ?_, ?_, ?_⟩
  · by_cases h : k = TX_SUCCESS <;> simp [createThreadResult, h]
  · by_cases h : k = TX_SUCCESS <;> simp [sleepForResult, h]
  · intro s term del
    unfold destructorResult
    split_ifs with h1 h2
    · constructor
      · intro h; exact absurd h (by decide)
      · intro h; exact absurd (h.1.resolve_left h1.1) h1.2
    · constructor
      · intro h; exact absurd h (by decide)
      · intro h; exact absurd h.2 h2
    · push_neg at h1 h2
      simp only [h2, and_true, true_iff]
      by_cases hs : s = TX_COMPLETED
      · exact Or.inl hs
      · exact Or.inr (h1 hs)

/-- Helper: a set (nonzero) entry/exit parameter slot makes `joinable`
false, whatever the projected state is. -/
theorem joinable_false_of_slot_set (t : thread) (cur : Nat)
    (h : t.entry_exit_param ≠ 0) : joinable t cur = false := by
  simp [joinable, get_entry_exit_param, h]

/-- Helper: no single step resets a set entry/exit parameter slot — every
wrapper call, kernel state transition and callback firing leaves its value
unchanged once it is nonzero (a later `opJoin` dies on its `joinable`
assert before writing). -/
theorem applyOp_preserves_slot (t : thread) (op : Op)
    (h : t.entry_exit_param ≠ 0) :
    (applyOp t op).entry_exit_param = t.entry_exit_param := by
  cases op with
  | opJoin callerAddr ecAddr notifyStatus =>
      have hj : joinable t callerAddr = false :=
        joinable_false_of_slot_set t callerAddr h
      simp [applyOp, join, hj]
  | _ => rfl

/-- Helper: `applyOp_preserves_slot` extended to arbitrary step
sequences. -/
theorem applyOps_preserves_slot (ops : List Op) (t : thread)
    (h : t.entry_exit_param ≠ 0) :
    (applyOps t ops).entry_exit_param = t.entry_exit_param := by
  induction ops generalizing t with
  | nil => rfl
  | cons op rest ih =>
      have h1 := applyOp_preserves_slot t op h
      have h2 : (applyOp t op).entry_exit_param ≠ 0 := by
        rw [h1]; exact h
      calc (applyOps t (op :: rest)).entry_exit_param
          = (applyOps (applyOp t op) rest).entry_exit_param := rfl
        _ = (applyOp t op).entry_exit_param := ih (applyOp t op) h2
        _ = t.entry_exit_param := h1

/-- Claim C10: once `join()` has set the entry/exit notification parameter
slot to a non-null value, no operation of the handle ever resets that slot
to null (`join()` returns without clearing it); consequently, for every
handle on which a `join()` has completed, `joinable()` returns false from
then on and the slot retains the pointer to the caller's stack-allocated
rendezvous object. -/
theorem join_slot_persists (t : thread) (callerAddr ecAddr : Nat)
    (hec : ecAddr ≠ 0) (hj : joinable t callerAddr = true)
    (hself : t.addr ≠ callerAddr) :
    join t callerAddr ecAddr TX_SUCCESS =
      joinOutcome.reachedAcquire
        (set_entry_exit_callback t join_exit_callback_ptr ecAddr
          TX_SUCCESS) ∧
    ∀ ops cur,
      (applyOps (set_entry_exit_callback t join_exit_callback_ptr ecAddr
          TX_SUCCESS) ops).entry_exit_param = ecAddr ∧
      joinable (applyOps (set_entry_exit_callback t join_exit_callback_ptr
          ecAddr TX_SUCCESS) ops) cur = false := by
  have ht' : (set_entry_exit_callback t join_exit_callback_ptr ecAddr
      TX_SUCCESS).entry_exit_param = ecAddr := by
    simp [set_entry_exit_callback]
  constructor
  · simp [join, hj, hself]
  · intro ops cur
    have hslot := applyOps_preserves_slot ops
      (set_entry_exit_callback t join_exit_callback_ptr ecAddr TX_SUCCESS)
      (by rw [ht']; exact hec)
    rw [ht'] at hslot
    exact ⟨hslot, joinable_false_of_slot_set _ cur (by rw [hslot]; exact hec)⟩

theorem join_slot_persists_witness :
    joinable (thread.mk 100 0 0 0 0 0 0 0 0 0) 200 = true ∧
    (applyOps (set_entry_exit_callback (thread.mk 100 0 0 0 0 0 0 0 0 0)
        join_exit_callback_ptr 300 TX_SUCCESS)
      [Op.opKernelSetState 1, Op.opSuspend 0,
        Op.opJoin 200 400 0]).entry_exit_param = 300 ∧
    joinable (applyOps
      (set_entry_exit_callback (thread.mk 100 0 0 0 0 0 0 0 0 0)
        join_exit_callback_ptr 300 TX_SUCCESS)
      [Op.opKernelSetState 1, Op.opSuspend 0,
        Op.opJoin 200 400 0]) 200 = false :=
  ⟨by decide,
   ((join_slot_persists (thread.mk 100 0 0 0 0 0 0 0 0 0) 200 300
      (by decide) (by decide) (by decide)).2
      [Op.opKernelSetState 1, Op.opSuspend 0, Op.opJoin 200 400 0] 200).1,
   ((join_slot_persists (thread.mk 100 0 0 0 0 0 0 0 0 0) 200 300
      (by decide) (by decide) (by decide)).2
      [Op.opKernelSetState 1, Op.opSuspend 0, Op.opJoin 200 400 0] 200).2⟩

end Stm32ThreadxThread
